import Mathlib

/-!
Verification of the terminal pomodoro application (`src/pomodoro.py`).

Shallow embedding: wall-clock timestamps (Python `time.time()` floats) are
modelled as rationals; Python's `int(...)` truncation toward zero is `pyInt`.
Python `None` becomes `Option`. Methods that mutate `self` become functions
from the old state to the new state; methods whose behaviour depends on the
ambient clock or calendar take the timestamp / ISO date as an explicit
argument. Audio playback, JSON persistence and the rich terminal rendering
are external collaborators with no effect on the core state, so the embedded
operations omit the `SoundPlayer` calls and the `save_tasks` / `save_stats`
calls that the source performs as side effects.
-/

namespace Pomodoro

/-- Module constant `WORK_MINUTES = 25`. -/
def WORK_MINUTES : ℤ := 25

/-- Module constant `SHORT_BREAK_MINUTES = 5`. -/
def SHORT_BREAK_MINUTES : ℤ := 5

/-- Module constant `LONG_BREAK_MINUTES = 15`. -/
def LONG_BREAK_MINUTES : ℤ := 15

/-- Module constant `POMODOROS_UNTIL_LONG_BREAK = 4`. -/
def POMODOROS_UNTIL_LONG_BREAK : ℤ := 4

/-- Python's `int()` applied to a float: truncation toward zero. -/
def pyInt (q : ℚ) : ℤ := if q < 0 then -⌊-q⌋ else ⌊q⌋

/-- Enum `TimerState`. -/
inductive TimerState where
  | STOPPED
  | RUNNING
  | PAUSED
deriving DecidableEq, Repr

/-- Enum `SessionType`. -/
inductive SessionType where
  | WORK
  | SHORT_BREAK
  | LONG_BREAK
deriving DecidableEq, Repr

/-- State of class `PomodoroTimer`.  `start_time` is `None` until the first
start, hence an `Option`; `paused_time` is initialised to the number `0` in
the source, hence no `Option`. -/
structure PomodoroTimer where
  state : TimerState
  session_type : SessionType
  remaining_seconds : ℤ
  total_seconds : ℤ
  pomodoros_completed : ℤ
  start_time : Option ℚ
  paused_time : ℚ
deriving DecidableEq, Repr

/-- `PomodoroTimer.__init__`. -/
def PomodoroTimer.init : PomodoroTimer where
  state := TimerState.STOPPED
  session_type := SessionType.WORK
  remaining_seconds := WORK_MINUTES * 60
  total_seconds := WORK_MINUTES * 60
  pomodoros_completed := 0
  start_time := none
  paused_time := 0

/-- `PomodoroTimer.start`.  Returns `none` for the crash that Python would
raise when resuming from `PAUSED` while `start_time` is still `None`
(adding a float to `None`); that configuration is unreachable because the
timer can only be paused while running. -/
def PomodoroTimer.start (now : ℚ) (t : PomodoroTimer) : Option PomodoroTimer :=
  if t.state = TimerState.STOPPED then
    some { t with start_time := some now, state := TimerState.RUNNING }
  else if t.state = TimerState.PAUSED then
    match t.start_time with
    | none => none
    | some st =>
        some { t with start_time := some (st + (now - t.paused_time)),
                      state := TimerState.RUNNING }
  else
    some { t with state := TimerState.RUNNING }

/-- `PomodoroTimer.pause`. -/
def PomodoroTimer.pause (now : ℚ) (t : PomodoroTimer) : PomodoroTimer :=
  if t.state = TimerState.RUNNING then
    { t with state := TimerState.PAUSED, paused_time := now }
  else t

/-- `PomodoroTimer.stop`. -/
def PomodoroTimer.stop (t : PomodoroTimer) : PomodoroTimer :=
  { t with state := TimerState.STOPPED, remaining_seconds := t.total_seconds }

/-- `PomodoroTimer.start_work`. -/
def PomodoroTimer.start_work (t : PomodoroTimer) : PomodoroTimer :=
  { t with session_type := SessionType.WORK,
           total_seconds := WORK_MINUTES * 60,
           remaining_seconds := WORK_MINUTES * 60,
           state := TimerState.STOPPED }

/-- `PomodoroTimer.start_break`. -/
def PomodoroTimer.start_break (break_type : SessionType) (t : PomodoroTimer) :
    PomodoroTimer :=
  let total : ℤ :=
    if break_type = SessionType.LONG_BREAK then LONG_BREAK_MINUTES * 60
    else SHORT_BREAK_MINUTES * 60
  { t with session_type := break_type,
           total_seconds := total,
           remaining_seconds := total,
           state := TimerState.STOPPED }

/-- `PomodoroTimer.complete_session`. -/
def PomodoroTimer.complete_session (t : PomodoroTimer) : PomodoroTimer :=
  if t.session_type = SessionType.WORK then
    let t1 := { t with pomodoros_completed := t.pomodoros_completed + 1 }
    if t1.pomodoros_completed % POMODOROS_UNTIL_LONG_BREAK = 0 then
      t1.start_break SessionType.LONG_BREAK
    else
      t1.start_break SessionType.SHORT_BREAK
  else
    t.start_work

/-- `PomodoroTimer.skip`. -/
def PomodoroTimer.skip (now : ℚ) (t : PomodoroTimer) : PomodoroTimer :=
  if t.state = TimerState.RUNNING then
    { t with start_time := some (now - (t.total_seconds : ℚ)),
             remaining_seconds := 0 }
  else
    t.complete_session

/-- `PomodoroTimer.update`.  The `Bool` is the "session completed" return
value.  `none` models the crash Python would raise computing
`time.time() - None`, which is unreachable while running. -/
def PomodoroTimer.update (now : ℚ) (t : PomodoroTimer) :
    Option (PomodoroTimer × Bool) :=
  if t.state ≠ TimerState.RUNNING then some (t, false)
  else
    match t.start_time with
    | none => none
    | some st =>
        let elapsed : ℚ := now - st
        let t1 := { t with
          remaining_seconds := max 0 (t.total_seconds - pyInt elapsed) }
        if t1.remaining_seconds = 0 then some (t1.complete_session, true)
        else some (t1, false)

/-- The session-type duration table (Work 25 min, ShortBreak 5 min,
LongBreak 15 min), as the spec states it. -/
def session_duration : SessionType → ℤ
  | SessionType.WORK => WORK_MINUTES * 60
  | SessionType.SHORT_BREAK => SHORT_BREAK_MINUTES * 60
  | SessionType.LONG_BREAK => LONG_BREAK_MINUTES * 60

lemma complete_session_state (t : PomodoroTimer) :
    t.complete_session.state = TimerState.STOPPED := by
  by_cases h : t.session_type = SessionType.WORK
  · by_cases h2 : (t.pomodoros_completed + 1) % POMODOROS_UNTIL_LONG_BREAK = 0 <;>
      simp [PomodoroTimer.complete_session, PomodoroTimer.start_break, h, h2]
  · simp [PomodoroTimer.complete_session, PomodoroTimer.start_work, h]

lemma complete_session_start_time (t : PomodoroTimer) :
    t.complete_session.start_time = t.start_time := by
  by_cases h : t.session_type = SessionType.WORK
  · by_cases h2 : (t.pomodoros_completed + 1) % POMODOROS_UNTIL_LONG_BREAK = 0 <;>
      simp [PomodoroTimer.complete_session, PomodoroTimer.start_break, h, h2]
  · simp [PomodoroTimer.complete_session, PomodoroTimer.start_work, h]

lemma complete_session_set_remaining (t : PomodoroTimer) (r : ℤ) :
    ({ t with remaining_seconds := r } : PomodoroTimer).complete_session
      = t.complete_session := by
  by_cases h : t.session_type = SessionType.WORK
  · by_cases h2 : (t.pomodoros_completed + 1) % POMODOROS_UNTIL_LONG_BREAK = 0 <;>
      simp [PomodoroTimer.complete_session, PomodoroTimer.start_break, h, h2]
  · simp [PomodoroTimer.complete_session, PomodoroTimer.start_work, h]

lemma complete_session_set_start (t : PomodoroTimer) (x : Option ℚ) :
    ({ t with start_time := x } : PomodoroTimer).complete_session
      = { t.complete_session with start_time := x } := by
  by_cases h : t.session_type = SessionType.WORK
  · by_cases h2 : (t.pomodoros_completed + 1) % POMODOROS_UNTIL_LONG_BREAK = 0 <;>
      simp [PomodoroTimer.complete_session, PomodoroTimer.start_break, h, h2]
  · simp [PomodoroTimer.complete_session, PomodoroTimer.start_work, h]

lemma update_not_running (t : PomodoroTimer) (now : ℚ)
    (h : t.state ≠ TimerState.RUNNING) : t.update now = some (t, false) := by
  unfold PomodoroTimer.update
  simp [h]

/-- C4: the session-completion transition.  From Work the completed counter
is incremented and the next session is LongBreak exactly when the new count
is divisible by 4 (otherwise ShortBreak); from either break the next session
is Work; in all cases the new `total_seconds` is the duration-table value,
`remaining_seconds` equals `total_seconds`, and the run state is Stopped. -/
theorem c4_complete_session_transition (t : PomodoroTimer) :
    (t.session_type = SessionType.WORK →
      t.complete_session.pomodoros_completed = t.pomodoros_completed + 1 ∧
      t.complete_session.session_type =
        (if (t.pomodoros_completed + 1) % 4 = 0 then SessionType.LONG_BREAK
         else SessionType.SHORT_BREAK)) ∧
    (t.session_type ≠ SessionType.WORK →
      t.complete_session.session_type = SessionType.WORK) ∧
    t.complete_session.total_seconds
      = session_duration t.complete_session.session_type ∧
    t.complete_session.remaining_seconds = t.complete_session.total_seconds ∧
    t.complete_session.state = TimerState.STOPPED := by
  by_cases h : t.session_type = SessionType.WORK
  · by_cases h2 : (t.pomodoros_completed + 1) % 4 = 0 <;>
      simp [PomodoroTimer.complete_session, PomodoroTimer.start_break,
        POMODOROS_UNTIL_LONG_BREAK, h, h2, session_duration]
  · simp [PomodoroTimer.complete_session, PomodoroTimer.start_work, h,
      session_duration]

lemma pyInt_of_nonneg (q : ℚ) (h : 0 ≤ q) : pyInt q = ⌊q⌋ := by
  simp [pyInt, not_lt.mpr h]

lemma pyInt_intCast (z : ℤ) : pyInt ((z : ℤ) : ℚ) = z := by
  unfold pyInt
  split
  · rw [show (-(z : ℚ)) = (((-z : ℤ) : ℤ) : ℚ) by push_cast; ring,
      Int.floor_intCast]
    ring
  · exact Int.floor_intCast z

lemma le_pyInt (z : ℤ) (q : ℚ) (h : (z : ℚ) ≤ q) : z ≤ pyInt q := by
  unfold pyInt
  split
  · rename_i hq
    have hzq : ⌊-q⌋ ≤ -z := by
      have h2 : (-q : ℚ) ≤ (((-z : ℤ) : ℤ) : ℚ) := by push_cast; linarith
      have h3 := Int.floor_le_floor h2
      rwa [Int.floor_intCast] at h3
    omega
  · exact Int.le_floor.mpr h

/-- C5: while Running with elapsed time `E` satisfying `0 ≤ E < D`, `update`
sets `remaining_seconds` to `D - ⌊E⌋` and does not complete; `update` is a
no-op returning no signal whenever the run state is not Running; and after
any completion signal the timer is Stopped, so `update` cannot signal again
before the next `start`. -/
theorem c5_update_no_early_completion :
    (∀ (t : PomodoroTimer) (st E : ℚ),
        t.state = TimerState.RUNNING → t.start_time = some st →
        0 ≤ E → E < (t.total_seconds : ℚ) →
        t.update (st + E)
          = some ({ t with remaining_seconds := t.total_seconds - ⌊E⌋ },
                  false)) ∧
    (∀ (t : PomodoroTimer) (now : ℚ),
        t.state ≠ TimerState.RUNNING → t.update now = some (t, false)) ∧
    (∀ (t t1 : PomodoroTimer) (now : ℚ),
        t.update now = some (t1, true) →
        t1.state = TimerState.STOPPED ∧
        ∀ now1, t1.update now1 = some (t1, false)) := by
  refine ⟨?_, fun t now h => update_not_running t now h, ?_⟩
  · intro t st E h1 h2 h3 h4
    unfold PomodoroTimer.update
    simp only [h1, h2, ne_eq, not_true_eq_false, if_false, reduceIte]
    rw [show st + E - st = E by ring, pyInt_of_nonneg E h3]
    have hfl : ⌊E⌋ < t.total_seconds := Int.floor_lt.mpr h4
    rw [max_eq_right (by omega : (0 : ℤ) ≤ t.total_seconds - ⌊E⌋)]
    rw [if_neg (by omega : ¬ t.total_seconds - ⌊E⌋ = 0)]
  · intro t t1 now h
    by_cases hr : t.state = TimerState.RUNNING
    · unfold PomodoroTimer.update at h
      simp only [hr, ne_eq, not_true_eq_false, if_false, reduceIte] at h
      split at h
      · simp at h
      · split at h
        · simp only [Option.some.injEq, Prod.mk.injEq] at h
          have hstp : t1.state = TimerState.STOPPED := by
            rw [← h.1]; exact complete_session_state _
          exact ⟨hstp, fun now1 =>
            update_not_running t1 now1 (by rw [hstp]; simp)⟩
        · simp only [Option.some.injEq, Prod.mk.injEq] at h
          exact absurd h.2 (by simp)
    · rw [update_not_running t now hr] at h
      simp only [Option.some.injEq, Prod.mk.injEq] at h
      exact absurd h.2 (by simp)

/-- A running 25-minute work session that started at time 0. -/
def runningT : PomodoroTimer :=
  { PomodoroTimer.init with
    state := TimerState.RUNNING,
    start_time := some 0 }

/-- Witness for `c5_update_no_early_completion`: a freshly started 25-minute
work session polled 10/3 seconds in shows 1497 seconds remaining and no
completion. -/
theorem c5_witness :
    ((runningT.update (0 + 10 / 3)).map
        (fun p => (p.1.remaining_seconds, p.2)))
      = some (1497, false) := by
  rw [c5_update_no_early_completion.1 runningT 0 (10 / 3) rfl rfl
    (by norm_num)
    (by norm_num [runningT, PomodoroTimer.init, WORK_MINUTES])]
  norm_num [runningT, PomodoroTimer.init, WORK_MINUTES]

/-- C2: `skip` produces exactly one completion transition identical in
effect to natural expiry.  When not Running the completion transition is
applied directly.  When Running, `skip` back-dates `start_time` so elapsed
equals `total_seconds`, zeroes `remaining_seconds`, and the next `update`
poll signals completion with the post-state equal to the natural-expiry
post-state (the same `complete_session` transition) up to the back-dated
`start_time`.  After any completion transition the timer is Stopped and
`update` never re-signals, so exactly one completion occurs. -/
theorem c2_skip_matches_natural_expiry :
    (∀ (t : PomodoroTimer) (now : ℚ),
        t.state ≠ TimerState.RUNNING → t.skip now = t.complete_session) ∧
    (∀ (t : PomodoroTimer) (now : ℚ), t.state = TimerState.RUNNING →
        (t.skip now).start_time = some (now - (t.total_seconds : ℚ)) ∧
        (t.skip now).remaining_seconds = 0 ∧
        ∀ now1, now ≤ now1 →
          (t.skip now).update now1
            = some ({ ({ t with remaining_seconds := 0 }
                        : PomodoroTimer).complete_session with
                      start_time := some (now - (t.total_seconds : ℚ)) },
                    true)) ∧
    (∀ t : PomodoroTimer,
        t.complete_session.state = TimerState.STOPPED ∧
        ∀ now1, t.complete_session.update now1
          = some (t.complete_session, false)) := by
  refine ⟨?_, ?_, ?_⟩
  · intro t now h
    unfold PomodoroTimer.skip
    rw [if_neg h]
  · intro t now h
    refine ⟨by simp [PomodoroTimer.skip, h], by simp [PomodoroTimer.skip, h],
      ?_⟩
    intro now1 hle
    unfold PomodoroTimer.skip
    rw [if_pos h]
    unfold PomodoroTimer.update
    simp only [h, ne_eq, not_true_eq_false, if_false, reduceIte]
    have hD : (t.total_seconds : ℚ) ≤ now1 - (now - (t.total_seconds : ℚ)) :=
      by linarith
    have h2 := le_pyInt t.total_seconds _ hD
    rw [max_eq_left (by omega :
      t.total_seconds - pyInt (now1 - (now - (t.total_seconds : ℚ))) ≤ 0)]
    rw [if_pos rfl]
    exact congrArg some (congrArg (fun s => (s, true))
      (complete_session_set_start
        ({ t with remaining_seconds := 0 } : PomodoroTimer)
        (some (now - (t.total_seconds : ℚ)))))
  · intro t
    refine ⟨complete_session_state t, fun now1 =>
      update_not_running _ _ ?_⟩
    rw [complete_session_state]
    simp

/-- Witness for `c2_skip_matches_natural_expiry`: skipping a stopped timer
applies the completion transition directly; skipping a running timer zeroes
the remaining time and the next poll signals exactly one completion. -/
theorem c2_witness :
    PomodoroTimer.init.skip 5 = PomodoroTimer.init.complete_session ∧
    (runningT.skip 7).remaining_seconds = 0 ∧
    ((runningT.skip 7).update 7).map Prod.snd = some true := by
  refine ⟨c2_skip_matches_natural_expiry.1 PomodoroTimer.init 5 (by decide),
    ?_, ?_⟩
  · exact (c2_skip_matches_natural_expiry.2.1 runningT 7 rfl).2.1
  · rw [(c2_skip_matches_natural_expiry.2.1 runningT 7 rfl).2.2 7 le_rfl]
    rfl

/-- C6: pausing at `t1` and resuming at `t2` shifts `start_time` forward by
exactly `t2 - t1` (the pause duration `now - pausedAt`), so elapsed running
time is preserved, and waiting the originally remaining amount
`total_seconds - (t1 - st)` after the resume completes the session — for
every pause length, since `t2` is arbitrary. -/
theorem c6_pause_resume_preserves_elapsed (t : PomodoroTimer)
    (st t1 t2 : ℚ) (hrun : t.state = TimerState.RUNNING)
    (hst : t.start_time = some st) :
    (t.pause t1).state = TimerState.PAUSED ∧
    (t.pause t1).paused_time = t1 ∧
    (t.pause t1).start t2
      = some { t with state := TimerState.RUNNING, paused_time := t1,
                      start_time := some (st + (t2 - t1)) } ∧
    ({ t with state := TimerState.RUNNING, paused_time := t1,
              start_time := some (st + (t2 - t1)) }
        : PomodoroTimer).update (t2 + ((t.total_seconds : ℚ) - (t1 - st)))
      = some (({ t with state := TimerState.RUNNING, paused_time := t1,
                        start_time := some (st + (t2 - t1)),
                        remaining_seconds := 0 }
                 : PomodoroTimer).complete_session, true) := by
  refine ⟨by simp [PomodoroTimer.pause, hrun],
    by simp [PomodoroTimer.pause, hrun], ?_, ?_⟩
  · unfold PomodoroTimer.pause PomodoroTimer.start
    rw [if_pos hrun]
    simp [hst]
  · unfold PomodoroTimer.update
    simp only [ne_eq, not_true_eq_false, if_false, reduceIte]
    rw [show t2 + ((t.total_seconds : ℚ) - (t1 - st)) - (st + (t2 - t1))
          = ((t.total_seconds : ℤ) : ℚ) by ring,
      pyInt_intCast]
    rw [show max 0 (t.total_seconds - t.total_seconds) = 0 by omega]
    rw [if_pos rfl]

/-- Witness for `c6_pause_resume_preserves_elapsed`: a session started at 0,
paused at 10 and resumed at 99 has its start time shifted to 89, and waiting
the remaining 1490 seconds completes the session. -/
theorem c6_witness :
    (runningT.pause 10).start 99
      = some { runningT with
               state := TimerState.RUNNING,
               paused_time := 10,
               start_time := some (0 + (99 - 10)) } ∧
    ({ runningT with
       state := TimerState.RUNNING,
       paused_time := 10,
       start_time := some (0 + (99 - 10)) }
        : PomodoroTimer).update (99 + ((runningT.total_seconds : ℚ) - (10 - 0)))
      = some (({ runningT with
                 state := TimerState.RUNNING,
                 paused_time := 10,
                 start_time := some (0 + (99 - 10)),
                 remaining_seconds := 0 }
                 : PomodoroTimer).complete_session, true) :=
  ⟨(c6_pause_resume_preserves_elapsed runningT 0 10 99 rfl rfl).2.2.1,
   (c6_pause_resume_preserves_elapsed runningT 0 10 99 rfl rfl).2.2.2⟩

/-- Witness for `c4_complete_session_transition`: a Work session with three
prior completions transitions to LongBreak, and a ShortBreak transitions
back to Work with the 25-minute duration. -/
theorem c4_witness :
    ({ PomodoroTimer.init with pomodoros_completed := 3 }
        : PomodoroTimer).complete_session.session_type
      = SessionType.LONG_BREAK ∧
    ({ PomodoroTimer.init with session_type := SessionType.SHORT_BREAK }
        : PomodoroTimer).complete_session.session_type = SessionType.WORK ∧
    ({ PomodoroTimer.init with session_type := SessionType.SHORT_BREAK }
        : PomodoroTimer).complete_session.total_seconds = 25 * 60 := by
  have h1 := c4_complete_session_transition
    { PomodoroTimer.init with pomodoros_completed := 3 }
  have h2 := c4_complete_session_transition
    { PomodoroTimer.init with session_type := SessionType.SHORT_BREAK }
  refine ⟨?_, ?_, ?_⟩
  · have := (h1.1 rfl).2
    simpa using this
  · exact h2.2.1 (by simp)
  · have h3 := h2.2.2.1
    rw [h2.2.1 (by simp)] at h3
    simpa [session_duration, WORK_MINUTES] using h3

/-- Dataclass `Task`.  `created_at` is the `datetime.now().isoformat()`
text set at construction. -/
structure Task where
  id : ℤ
  title : String
  priority : String
  estimated_pomodoros : ℤ
  completed_pomodoros : ℤ
  completed : Bool
  created_at : String
deriving DecidableEq, Repr

/-- Applies `f` to the first element satisfying `p`, leaving the rest
unchanged.  Models Python mutating, through the object reference returned by
`get_task`, the first task in the list with a matching id. -/
def modifyFirst {α : Type} (p : α → Bool) (f : α → α) : List α → List α
  | [] => []
  | x :: xs => if p x then f x :: xs else x :: modifyFirst p f xs

/-- State of class `TaskManager`: the task list, the `next_id` counter and
the optional active-task id. -/
structure TaskManager where
  tasks : List Task
  next_id : ℤ
  active_task_id : Option ℤ
deriving DecidableEq, Repr

/-- `TaskManager.__init__` before `load_tasks()` replays the persisted file;
loading is an external persistence collaborator and these are the defaults
it falls back to. -/
def TaskManager.init : TaskManager where
  tasks := []
  next_id := 1
  active_task_id := none

/-- `TaskManager.add_task`.  Returns the new store and the created task.
`created_at` is the construction timestamp text. -/
def TaskManager.add_task (title priority : String) (estimated_pomodoros : ℤ)
    (created_at : String) (tm : TaskManager) : TaskManager × Task :=
  let task : Task :=
    { id := tm.next_id, title := title, priority := priority,
      estimated_pomodoros := estimated_pomodoros, completed_pomodoros := 0,
      completed := false, created_at := created_at }
  ({ tm with tasks := tm.tasks ++ [task], next_id := tm.next_id + 1 }, task)

/-- `TaskManager.get_task`: linear search for the first matching id. -/
def TaskManager.get_task (task_id : ℤ) (tm : TaskManager) : Option Task :=
  tm.tasks.find? (fun t => decide (t.id = task_id))

/-- `TaskManager.get_active_task`.  The guard is Python truthiness
(`if self.active_task_id:`), which treats the id `0` like `None`. -/
def TaskManager.get_active_task (tm : TaskManager) : Option Task :=
  match tm.active_task_id with
  | some i => if i = 0 then none else tm.get_task i
  | none => none

/-- `TaskManager.set_active_task`: assigns the given id unconditionally. -/
def TaskManager.set_active_task (task_id : Option ℤ) (tm : TaskManager) :
    TaskManager :=
  { tm with active_task_id := task_id }

/-- `TaskManager.complete_task`. -/
def TaskManager.complete_task (task_id : ℤ) (tm : TaskManager) : TaskManager :=
  match tm.get_task task_id with
  | none => tm
  | some _ =>
      { tm with
        tasks := modifyFirst (fun t => decide (t.id = task_id))
          (fun t => { t with completed := true }) tm.tasks }

/-- `TaskManager.delete_task`. -/
def TaskManager.delete_task (task_id : ℤ) (tm : TaskManager) : TaskManager :=
  let tm1 := { tm with
    tasks := tm.tasks.filter (fun t => decide (¬ t.id = task_id)) }
  if tm1.active_task_id = some task_id then
    { tm1 with active_task_id := none }
  else tm1

/-- `TaskManager.edit_task`: applies only the provided fields. -/
def TaskManager.edit_task (task_id : ℤ) (title : Option String)
    (priority : Option String) (estimated : Option ℤ) (tm : TaskManager) :
    TaskManager :=
  match tm.get_task task_id with
  | none => tm
  | some _ =>
      { tm with
        tasks := modifyFirst (fun t => decide (t.id = task_id))
          (fun t =>
            let t1 := match title with
              | some s => { t with title := s }
              | none => t
            let t2 := match priority with
              | some p => { t1 with priority := p }
              | none => t1
            match estimated with
            | some e => { t2 with estimated_pomodoros := e }
            | none => t2) tm.tasks }

/-- `TaskManager.increment_task_pomodoro`. -/
def TaskManager.increment_task_pomodoro (task_id : ℤ) (tm : TaskManager) :
    TaskManager :=
  match tm.get_task task_id with
  | none => tm
  | some _ =>
      { tm with
        tasks := modifyFirst (fun t => decide (t.id = task_id))
          (fun t => { t with completed_pomodoros := t.completed_pomodoros + 1 })
          tm.tasks }

/-- The `priority_order` dict lookup with default 3
(`priority_order.get(t.priority, 3)`). -/
def priority_order (p : String) : ℤ :=
  if p = "High" then 0 else if p = "Medium" then 1
  else if p = "Low" then 2 else 3

/-- `TaskManager.get_incomplete_tasks`.  Python's stable `list.sort` is
modelled by the stable `List.mergeSort`. -/
def TaskManager.get_incomplete_tasks (sort_by_priority : Bool)
    (tm : TaskManager) : List Task :=
  let tasks := tm.tasks.filter (fun t => !t.completed)
  if sort_by_priority then
    tasks.mergeSort
      (fun a b => decide (priority_order a.priority ≤ priority_order b.priority))
  else tasks

/-- The invariant of the claim: the active-task reference, if set, names an
id present in the task list. -/
def active_ref_ok (tm : TaskManager) : Bool :=
  match tm.active_task_id with
  | none => true
  | some i => tm.tasks.any (fun t => decide (t.id = i))

lemma modifyFirst_id_preserved (p : Task → Bool) (f : Task → Task)
    (hf : ∀ x, (f x).id = x.id) (l : List Task) (i : ℤ) :
    (modifyFirst p f l).any (fun t => decide (t.id = i))
      = l.any (fun t => decide (t.id = i)) := by
  induction l with
  | nil => rfl
  | cons x xs ih =>
      unfold modifyFirst
      by_cases hp : p x
      · simp [hp, hf x]
      · simp [hp, ih]

lemma delete_task_next_id (tm : TaskManager) (i : ℤ) :
    (tm.delete_task i).next_id = tm.next_id := by
  simp only [TaskManager.delete_task]
  split <;> rfl

lemma delete_task_tasks (tm : TaskManager) (i : ℤ) :
    (tm.delete_task i).tasks
      = tm.tasks.filter (fun t => decide (¬ t.id = i)) := by
  simp only [TaskManager.delete_task]
  split <;> rfl

lemma delete_task_active (tm : TaskManager) (i : ℤ) :
    (tm.delete_task i).active_task_id
      = (if tm.active_task_id = some i then none else tm.active_task_id) := by
  simp only [TaskManager.delete_task]
  split <;> rfl

lemma active_ref_ok_congr (tm1 tm2 : TaskManager)
    (hact : tm1.active_task_id = tm2.active_task_id)
    (hany : ∀ j, tm1.tasks.any (fun t => decide (t.id = j))
        = tm2.tasks.any (fun t => decide (t.id = j))) :
    active_ref_ok tm1 = active_ref_ok tm2 := by
  unfold active_ref_ok
  rw [hact]
  cases tm2.active_task_id with
  | none => rfl
  | some a => exact hany a

lemma complete_task_active (tm : TaskManager) (i : ℤ) :
    (tm.complete_task i).active_task_id = tm.active_task_id := by
  unfold TaskManager.complete_task
  cases hg : tm.get_task i <;> rfl

lemma complete_task_any (tm : TaskManager) (i : ℤ) : ∀ j,
    (tm.complete_task i).tasks.any (fun t => decide (t.id = j))
      = tm.tasks.any (fun t => decide (t.id = j)) := by
  intro j
  unfold TaskManager.complete_task
  cases hg : tm.get_task i with
  | none => rfl
  | some t0 =>
      show (modifyFirst (fun t => decide (t.id = i))
          (fun t => { t with completed := true }) tm.tasks).any
          (fun t => decide (t.id = j))
        = tm.tasks.any (fun t => decide (t.id = j))
      exact modifyFirst_id_preserved (fun t => decide (t.id = i))
        (fun t => { t with completed := true }) (fun x => rfl) tm.tasks j

lemma edit_task_active (tm : TaskManager) (i : ℤ) (ti : Option String)
    (pr : Option String) (es : Option ℤ) :
    (tm.edit_task i ti pr es).active_task_id = tm.active_task_id := by
  unfold TaskManager.edit_task
  cases hg : tm.get_task i <;> rfl

lemma edit_task_any (tm : TaskManager) (i : ℤ) (ti : Option String)
    (pr : Option String) (es : Option ℤ) : ∀ j,
    (tm.edit_task i ti pr es).tasks.any (fun t => decide (t.id = j))
      = tm.tasks.any (fun t => decide (t.id = j)) := by
  intro j
  unfold TaskManager.edit_task
  cases hg : tm.get_task i with
  | none => rfl
  | some t0 =>
      refine modifyFirst_id_preserved _ _ ?_ tm.tasks j
      intro x
      cases ti <;> cases pr <;> cases es <;> rfl

lemma increment_task_active (tm : TaskManager) (i : ℤ) :
    (tm.increment_task_pomodoro i).active_task_id = tm.active_task_id := by
  unfold TaskManager.increment_task_pomodoro
  cases hg : tm.get_task i <;> rfl

lemma increment_task_any (tm : TaskManager) (i : ℤ) : ∀ j,
    (tm.increment_task_pomodoro i).tasks.any (fun t => decide (t.id = j))
      = tm.tasks.any (fun t => decide (t.id = j)) := by
  intro j
  unfold TaskManager.increment_task_pomodoro
  cases hg : tm.get_task i with
  | none => rfl
  | some t0 =>
      show (modifyFirst (fun t => decide (t.id = i))
          (fun t => { t with completed_pomodoros := t.completed_pomodoros + 1 })
          tm.tasks).any (fun t => decide (t.id = j))
        = tm.tasks.any (fun t => decide (t.id = j))
      exact modifyFirst_id_preserved (fun t => decide (t.id = i))
        (fun t => { t with completed_pomodoros := t.completed_pomodoros + 1 })
        (fun x => rfl) tm.tasks j

/-- C10: every id-taking Task Store operation is total on a missing id:
`get_task` returns `none` exactly when no task carries the id, and
`complete_task`, `edit_task` and `increment_task_pomodoro` return the store
unchanged (task list, next-id counter and active reference included) instead
of raising. -/
theorem c10_missing_id_total_noop :
    (∀ (tm : TaskManager) (i : ℤ),
        (∀ t ∈ tm.tasks, t.id ≠ i) → tm.get_task i = none) ∧
    (∀ (tm : TaskManager) (i : ℤ), tm.get_task i = none →
        tm.complete_task i = tm ∧
        (∀ ti pr es, tm.edit_task i ti pr es = tm) ∧
        tm.increment_task_pomodoro i = tm) := by
  constructor
  · intro tm i h
    unfold TaskManager.get_task
    rw [List.find?_eq_none]
    intro t ht
    simpa using h t ht
  · intro tm i h
    refine ⟨?_, ?_, ?_⟩
    · unfold TaskManager.complete_task
      rw [h]
    · intro ti pr es
      unfold TaskManager.edit_task
      rw [h]
    · unfold TaskManager.increment_task_pomodoro
      rw [h]

/-- The single-task store used by concrete witnesses: one task with id 1,
next id 2, task 1 active. -/
def taskA : Task where
  id := 1
  title := "Write report"
  priority := "High"
  estimated_pomodoros := 4
  completed_pomodoros := 0
  completed := false
  created_at := "2026-10-12T09:00:00"

/-- See `taskA`. -/
def tmOne : TaskManager where
  tasks := [taskA]
  next_id := 2
  active_task_id := some 1

/-- Witness for `c10_missing_id_total_noop`: id 2 is absent from `tmOne`,
and the three mutators leave the store untouched for it. -/
theorem c10_witness :
    tmOne.get_task 2 = none ∧
    tmOne.complete_task 2 = tmOne ∧
    tmOne.edit_task 2 (some "X") none none = tmOne ∧
    tmOne.increment_task_pomodoro 2 = tmOne := by
  have h1 := c10_missing_id_total_noop.1 tmOne 2 (by decide)
  have h2 := c10_missing_id_total_noop.2 tmOne 2 h1
  exact ⟨h1, h2.1, h2.2.1 (some "X") none none, h2.2.2⟩

/-- C7: `add_task` always hands out the current next-id counter and
increments it; `delete_task` never touches the counter; when every stored id
is below the counter (as every reachable store satisfies), a fresh id never
collides with a stored one and the bound is maintained by add and delete.
Concretely: adding three tasks, deleting the second and adding a fourth
gives the fourth task id 4, not 2. -/
theorem c7_ids_never_reused :
    (∀ (tm : TaskManager) (title priority : String) (est : ℤ)
        (created : String),
        (tm.add_task title priority est created).2.id = tm.next_id ∧
        (tm.add_task title priority est created).1.next_id = tm.next_id + 1 ∧
        (tm.add_task title priority est created).1.tasks
          = tm.tasks ++ [(tm.add_task title priority est created).2]) ∧
    (∀ (tm : TaskManager) (i : ℤ),
        (tm.delete_task i).next_id = tm.next_id) ∧
    (∀ tm : TaskManager, (∀ t ∈ tm.tasks, t.id < tm.next_id) →
        (∀ (title priority : String) (est : ℤ) (created : String),
            (tm.add_task title priority est created).2.id ∉
              tm.tasks.map Task.id ∧
            ∀ t ∈ (tm.add_task title priority est created).1.tasks,
              t.id < (tm.add_task title priority est created).1.next_id) ∧
        (∀ i, ∀ t ∈ (tm.delete_task i).tasks,
            t.id < (tm.delete_task i).next_id)) ∧
    (((((TaskManager.init.add_task "A" "High" 1 "d").1.add_task "B" "High" 1
        "d").1.add_task "C" "High" 1 "d").1.delete_task 2).add_task "D" "High"
        1 "d").2.id = 4 ∧
    ((((((TaskManager.init.add_task "A" "High" 1 "d").1.add_task "B" "High" 1
        "d").1.add_task "C" "High" 1 "d").1.delete_task 2).add_task "D" "High"
        1 "d").1.tasks.map Task.id) = [1, 3, 4] := by
  refine ⟨?_, ?_, ?_, by decide, by decide⟩
  · intro tm title priority est created
    exact ⟨rfl, rfl, rfl⟩
  · intro tm i
    exact delete_task_next_id tm i
  · intro tm h
    constructor
    · intro title priority est created
      constructor
      · simp only [TaskManager.add_task, List.mem_map]
        rintro ⟨t, ht, heq⟩
        have := h t ht
        omega
      · intro t ht
        simp only [TaskManager.add_task, List.mem_append,
          List.mem_singleton] at ht
        rcases ht with ht | ht
        · have := h t ht
          simp only [TaskManager.add_task]
          omega
        · subst ht
          simp only [TaskManager.add_task]
          omega
    · intro i t ht
      have hmem : t ∈ tm.tasks := by
        rw [delete_task_tasks] at ht
        exact (List.mem_filter.mp ht).1
      rw [delete_task_next_id]
      exact h t hmem

/-- Witness for `c7_ids_never_reused`: on the one-task store the freshly
assigned id 2 is not among the stored ids and the bound is kept. -/
theorem c7_witness :
    (tmOne.add_task "B" "Low" 2 "d").2.id ∉ tmOne.tasks.map Task.id ∧
    ∀ t ∈ (tmOne.delete_task 1).tasks,
      t.id < (tmOne.delete_task 1).next_id := by
  have h := c7_ids_never_reused.2.2.1 tmOne (by decide)
  exact ⟨(h.1 "B" "Low" 2 "d").1, h.2 1⟩

/-- C3 counterexample: `set_active_task` performs no validation, so the
claim that set-active only accepts an existing task id fails — on the empty
initial store it happily stores the non-existent id 5 and the active
reference then points outside the task list. -/
theorem c3_set_active_skips_validation :
    active_ref_ok TaskManager.init = true ∧
    (TaskManager.init.set_active_task (some 5)).active_task_id = some 5 ∧
    active_ref_ok (TaskManager.init.set_active_task (some 5)) = false := by
  exact ⟨rfl, rfl, rfl⟩

/-- C3 (amended): the active-reference invariant is preserved by add,
complete, edit, increment-pomodoro and delete — delete clears the reference
when it pointed at the deleted task — and set-active establishes it when
given `none` or the id of a task present in the list; set-active itself
stores the given id unconditionally, without validation. -/
theorem c3_active_reference_invariant :
    (∀ (tm : TaskManager) (i : Option ℤ),
        (tm.set_active_task i).active_task_id = i) ∧
    (∀ (tm : TaskManager) (i : ℤ), tm.active_task_id = some i →
        (tm.delete_task i).active_task_id = none) ∧
    (∀ (tm : TaskManager) (i : ℤ),
        active_ref_ok tm = true → active_ref_ok (tm.delete_task i) = true) ∧
    (∀ (tm : TaskManager) (title priority : String) (est : ℤ)
        (created : String), active_ref_ok tm = true →
        active_ref_ok (tm.add_task title priority est created).1 = true) ∧
    (∀ (tm : TaskManager) (i : ℤ), active_ref_ok tm = true →
        active_ref_ok (tm.complete_task i) = true) ∧
    (∀ (tm : TaskManager) (i : ℤ) (ti : Option String) (pr : Option String)
        (es : Option ℤ), active_ref_ok tm = true →
        active_ref_ok (tm.edit_task i ti pr es) = true) ∧
    (∀ (tm : TaskManager) (i : ℤ), active_ref_ok tm = true →
        active_ref_ok (tm.increment_task_pomodoro i) = true) ∧
    (∀ (tm : TaskManager) (i : ℤ), (∃ t ∈ tm.tasks, t.id = i) →
        active_ref_ok (tm.set_active_task (some i)) = true) ∧
    (∀ tm : TaskManager, active_ref_ok (tm.set_active_task none) = true) := by
  refine ⟨fun tm i => rfl, ?_, ?_, ?_, ?_, ?_, ?_, ?_, fun tm => rfl⟩
  · intro tm i h
    rw [delete_task_active, if_pos h]
  · intro tm i h
    unfold active_ref_ok at h ⊢
    rw [delete_task_active, delete_task_tasks]
    by_cases hcond : tm.active_task_id = some i
    · rw [if_pos hcond]
    · rw [if_neg hcond]
      cases ha : tm.active_task_id with
      | none => rfl
      | some a =>
          rw [ha] at h
          simp only [List.any_eq_true, decide_eq_true_eq] at h ⊢
          obtain ⟨t, ht, hta⟩ := h
          have hne : ¬ a = i := fun he => hcond (by rw [ha, he])
          exact ⟨t, List.mem_filter.mpr ⟨ht, by simp [hta, hne]⟩, hta⟩
  · intro tm title priority est created h
    unfold active_ref_ok at h ⊢
    rw [show (tm.add_task title priority est created).1.active_task_id
          = tm.active_task_id from rfl,
      show (tm.add_task title priority est created).1.tasks
          = tm.tasks ++ [(tm.add_task title priority est created).2] from rfl]
    cases ha : tm.active_task_id with
    | none => rfl
    | some a =>
        rw [ha] at h
        simp only [List.any_eq_true, decide_eq_true_eq] at h ⊢
        obtain ⟨t, ht, hta⟩ := h
        exact ⟨t, List.mem_append_left _ ht, hta⟩
  · intro tm i h
    rw [active_ref_ok_congr (tm.complete_task i) tm
      (complete_task_active tm i) (complete_task_any tm i)]
    exact h
  · intro tm i ti pr es h
    rw [active_ref_ok_congr (tm.edit_task i ti pr es) tm
      (edit_task_active tm i ti pr es) (edit_task_any tm i ti pr es)]
    exact h
  · intro tm i h
    rw [active_ref_ok_congr (tm.increment_task_pomodoro i) tm
      (increment_task_active tm i) (increment_task_any tm i)]
    exact h
  · intro tm i h
    show tm.tasks.any (fun t => decide (t.id = i)) = true
    simp only [List.any_eq_true, decide_eq_true_eq]
    obtain ⟨t, ht, hti⟩ := h
    exact ⟨t, ht, hti⟩

/-- Witness for `c3_active_reference_invariant`: deleting the active task 1
of `tmOne` clears the reference, and set-active with the existing id 1
keeps the invariant. -/
theorem c3_witness :
    (tmOne.delete_task 1).active_task_id = none ∧
    active_ref_ok (tmOne.set_active_task (some 1)) = true ∧
    active_ref_ok (tmOne.complete_task 1) = true := by
  refine ⟨c3_active_reference_invariant.2.1 tmOne 1 rfl,
    c3_active_reference_invariant.2.2.2.2.2.2.2.1 tmOne 1
      ⟨taskA, by decide, by decide⟩,
    c3_active_reference_invariant.2.2.2.2.1 tmOne 1 (by decide)⟩

/-- One day's entry in the statistics mapping:
`{"total_pomodoros": n, "tasks": {title: count}}`. -/
structure DayStats where
  total_pomodoros : ℤ
  tasks : List (String × ℤ)
deriving DecidableEq, Repr

/-- Lookup in an insertion-ordered association list, modelling Python dict
indexing (`d[k]` / `k in d`). -/
def alookup {α : Type} (k : String) : List (String × α) → Option α
  | [] => none
  | (k1, v) :: rest => if k1 = k then some v else alookup k rest

/-- Updates the value stored under key `k`, modelling Python dict item
assignment on a present key. -/
def updateA {α : Type} (k : String) (f : α → α) :
    List (String × α) → List (String × α)
  | [] => []
  | (k1, v) :: rest =>
      if k1 = k then (k1, f v) :: rest else (k1, v) :: updateA k f rest

/-- State of class `Statistics`: the in-memory mapping from ISO date text to
day entries, insertion-ordered like a Python dict. -/
structure Statistics where
  stats : List (String × DayStats)
deriving DecidableEq, Repr

/-- `Statistics.record_pomodoro`.  `today` is `date.today().isoformat()`:
create today's zero entry if absent, bump today's total, create the title's
zero counter if absent, bump the title's counter. -/
def Statistics.record_pomodoro (task_title : String) (today : String)
    (s : Statistics) : Statistics :=
  let ensured :=
    if (alookup today s.stats).isSome then s.stats
    else s.stats ++ [(today, { total_pomodoros := 0, tasks := [] })]
  let bumped := updateA today
    (fun d => { d with total_pomodoros := d.total_pomodoros + 1 }) ensured
  let final := updateA today
    (fun d =>
      let ts :=
        if (alookup task_title d.tasks).isSome then d.tasks
        else d.tasks ++ [(task_title, (0 : ℤ))]
      { d with tasks := updateA task_title (fun c => c + 1) ts }) bumped
  { stats := final }

/-- `Statistics.get_today_stats`: today's entry or a zeroed default. -/
def Statistics.get_today_stats (today : String) (s : Statistics) : DayStats :=
  (alookup today s.stats).getD { total_pomodoros := 0, tasks := [] }

lemma alookup_append {α : Type} (k : String) (l m : List (String × α)) :
    alookup k (l ++ m)
      = (match alookup k l with
         | some v => some v
         | none => alookup k m) := by
  induction l with
  | nil => rfl
  | cons x xs ih =>
      obtain ⟨k1, v⟩ := x
      by_cases hk : k1 = k
      · simp [alookup, hk]
      · simp [alookup, hk, ih]

lemma alookup_updateA_self {α : Type} (k : String) (f : α → α)
    (l : List (String × α)) :
    alookup k (updateA k f l) = (alookup k l).map f := by
  induction l with
  | nil => rfl
  | cons x xs ih =>
      obtain ⟨k1, v⟩ := x
      by_cases hk : k1 = k
      · simp [alookup, updateA, hk]
      · simp [alookup, updateA, hk, ih]

lemma alookup_updateA_ne {α : Type} (k k2 : String) (f : α → α)
    (l : List (String × α)) (h : k2 ≠ k) :
    alookup k2 (updateA k f l) = alookup k2 l := by
  induction l with
  | nil => rfl
  | cons x xs ih =>
      obtain ⟨k1, v⟩ := x
      by_cases hk : k1 = k
      · subst hk
        simp [alookup, updateA, Ne.symm h]
      · by_cases hk2 : k1 = k2
        · simp [alookup, updateA, hk, hk2, h]
        · simp [alookup, updateA, hk, hk2, ih]

lemma alookup_ensure {α : Type} (k : String) (z : α)
    (l : List (String × α)) :
    alookup k (if (alookup k l).isSome then l else l ++ [(k, z)])
      = some ((alookup k l).getD z) := by
  cases h : alookup k l with
  | some v => simp [h]
  | none =>
      simp only [h, Option.isSome_none, Bool.false_eq_true, if_false]
      rw [alookup_append]
      simp [h, alookup]

lemma alookup_ensure_ne {α : Type} (k d : String) (z : α)
    (l : List (String × α)) (h : d ≠ k) :
    alookup d (if (alookup k l).isSome then l else l ++ [(k, z)])
      = alookup d l := by
  cases hk : alookup k l with
  | some v => simp [hk]
  | none =>
      simp only [hk, Option.isSome_none, Bool.false_eq_true, if_false]
      rw [alookup_append]
      cases hd : alookup d l with
      | some v => rfl
      | none => simp [alookup, Ne.symm h]

/-- C8: `record_pomodoro` increments today's total and today's per-title
counter by exactly one, creating today's zeroed entry when absent, and
leaves every other date's entry untouched; `get_today_stats` returns today's
entry or a zeroed default.  Concretely, recording for "Write report" twice
today after one prior-day record yields today's per-title count 2 with the
prior day unchanged. -/
theorem c8_record_pomodoro :
    (∀ (s : Statistics) (title today : String),
        ((s.record_pomodoro title today).get_today_stats today).total_pomodoros
          = (s.get_today_stats today).total_pomodoros + 1 ∧
        alookup title
            ((s.record_pomodoro title today).get_today_stats today).tasks
          = some ((alookup title (s.get_today_stats today).tasks).getD 0 + 1) ∧
        ∀ d, d ≠ today →
          alookup d (s.record_pomodoro title today).stats
            = alookup d s.stats) ∧
    (∀ (s : Statistics) (today : String),
        (alookup today s.stats = none →
          s.get_today_stats today = { total_pomodoros := 0, tasks := [] }) ∧
        (∀ d, alookup today s.stats = some d →
          s.get_today_stats today = d)) ∧
    ((((Statistics.record_pomodoro "Write report" "2026-10-11"
          { stats := [] }).record_pomodoro "Write report"
          "2026-10-12").record_pomodoro "Write report"
          "2026-10-12").get_today_stats "2026-10-12").total_pomodoros = 2 ∧
    alookup "Write report"
        ((((Statistics.record_pomodoro "Write report" "2026-10-11"
          { stats := [] }).record_pomodoro "Write report"
          "2026-10-12").record_pomodoro "Write report"
          "2026-10-12").get_today_stats "2026-10-12").tasks = some 2 ∧
    alookup "2026-10-11"
        (((Statistics.record_pomodoro "Write report" "2026-10-11"
          { stats := [] }).record_pomodoro "Write report"
          "2026-10-12").record_pomodoro "Write report"
          "2026-10-12").stats
      = some { total_pomodoros := 1, tasks := [("Write report", 1)] } := by
  refine ⟨?_, ?_, by decide, by decide, by decide⟩
  · intro s title today
    have hfin : alookup today (s.record_pomodoro title today).stats
        = some { total_pomodoros :=
                   (s.get_today_stats today).total_pomodoros + 1,
                 tasks := updateA title (fun c => c + 1)
                   (if (alookup title
                        (s.get_today_stats today).tasks).isSome
                    then (s.get_today_stats today).tasks
                    else (s.get_today_stats today).tasks
                      ++ [(title, (0 : ℤ))]) } := by
      simp only [Statistics.record_pomodoro]
      rw [alookup_updateA_self, alookup_updateA_self, alookup_ensure]
      cases hd : alookup today s.stats with
      | none => simp [Statistics.get_today_stats, hd]
      | some d => simp [Statistics.get_today_stats, hd]
    have hg : (s.record_pomodoro title today).get_today_stats today
        = { total_pomodoros := (s.get_today_stats today).total_pomodoros + 1,
            tasks := updateA title (fun c => c + 1)
              (if (alookup title (s.get_today_stats today).tasks).isSome
               then (s.get_today_stats today).tasks
               else (s.get_today_stats today).tasks ++ [(title, (0 : ℤ))]) } := by
      unfold Statistics.get_today_stats
      rw [hfin]
      rfl
    refine ⟨?_, ?_, ?_⟩
    · rw [hg]
    · rw [hg]
      show alookup title (updateA title (fun c => c + 1) _) = _
      rw [alookup_updateA_self, alookup_ensure]
      rfl
    · intro d hd
      simp only [Statistics.record_pomodoro]
      rw [alookup_updateA_ne _ _ _ _ hd, alookup_updateA_ne _ _ _ _ hd,
        alookup_ensure_ne _ _ _ _ hd]
  · intro s today
    constructor
    · intro h
      unfold Statistics.get_today_stats
      rw [h]
      rfl
    · intro d h
      unfold Statistics.get_today_stats
      rw [h]
      rfl

/-- A statistics log holding one prior-day record. -/
def c8S : Statistics where
  stats := [("2026-10-11",
    { total_pomodoros := 1, tasks := [("Write report", 1)] })]

/-- Witness for `c8_record_pomodoro`: recording on 2026-10-12 bumps that
day's total by one and leaves the 2026-10-11 entry untouched. -/
theorem c8_witness :
    ((c8S.record_pomodoro "Write report" "2026-10-12").get_today_stats
        "2026-10-12").total_pomodoros
      = (c8S.get_today_stats "2026-10-12").total_pomodoros + 1 ∧
    alookup "2026-10-11"
        (c8S.record_pomodoro "Write report" "2026-10-12").stats
      = alookup "2026-10-11" c8S.stats :=
  ⟨(c8_record_pomodoro.1 c8S "Write report" "2026-10-12").1,
   (c8_record_pomodoro.1 c8S "Write report" "2026-10-12").2.2 "2026-10-11"
     (by decide)⟩

/-- `Statistics.__init__` before `load_stats()` replays the persisted file
(external persistence collaborator); the empty mapping is its fallback. -/
def Statistics.init : Statistics where
  stats := []

/-- Core state of class `PomodoroApp`: the timer, task store, statistics
log, the main-loop `running` flag and the help-screen flag.  The `rich`
console, live display and saved terminal settings are presentation-layer
collaborators with no bearing on this state. -/
structure PomodoroApp where
  timer : PomodoroTimer
  task_manager : TaskManager
  stats : Statistics
  running : Bool
  show_help : Bool
deriving DecidableEq, Repr

/-- `PomodoroApp.__init__`. -/
def PomodoroApp.init : PomodoroApp where
  timer := PomodoroTimer.init
  task_manager := TaskManager.init
  stats := Statistics.init
  running := true
  show_help := false

/-- `PomodoroApp.on_session_complete`.  The three-chime
`SoundPlayer.play_completion_sound()` is a fire-and-forget audio side
effect.  `today` is `date.today().isoformat()` inside `record_pomodoro`.
Note that the guard reads `self.timer.session_type` as it is when the
handler runs. -/
def PomodoroApp.on_session_complete (today : String) (app : PomodoroApp) :
    PomodoroApp :=
  if app.timer.session_type = SessionType.WORK then
    match app.task_manager.get_active_task with
    | some active_task =>
        { app with
          task_manager :=
            app.task_manager.increment_task_pomodoro active_task.id,
          stats := app.stats.record_pomodoro active_task.title today }
    | none => { app with stats := app.stats.record_pomodoro "No task" today }
  else app

/-- The timer step of one iteration of `PomodoroApp.run`:
`if self.timer.update(): self.on_session_complete()`. -/
def PomodoroApp.tick_update (now : ℚ) (today : String) (app : PomodoroApp) :
    Option PomodoroApp :=
  match app.timer.update now with
  | none => none
  | some (t1, completed) =>
      let app1 := { app with timer := t1 }
      some (if completed then app1.on_session_complete today else app1)

/-- `PomodoroApp.handle_input`.  The four task dialogs
(`add_task_interactive`, `edit_task_interactive`, `complete_task_interactive`,
`delete_task_interactive`) are blocking console-I/O forms outside the core
state machine (they mutate the store only through the `TaskManager`
operations modelled above), so their combined effect is passed in as the
`dialog` collaborator. -/
def PomodoroApp.handle_input (dialog : Char → PomodoroApp → PomodoroApp)
    (now : ℚ) (key : Char) (app : PomodoroApp) : Option PomodoroApp :=
  if app.show_help then some { app with show_help := false }
  else if key = 'q' then some { app with running := false }
  else if key = '?' then some { app with show_help := true }
  else if key = 's' then
    if app.timer.state = TimerState.RUNNING then
      some { app with timer := app.timer.pause now }
    else
      (app.timer.start now).map (fun t => { app with timer := t })
  else if key = 'k' then some { app with timer := app.timer.skip now }
  else if key = 'a' ∨ key = 'e' ∨ key = 'c' ∨ key = 'd' then
    some (dialog key app)
  else if key.isDigit ∧ '1' ≤ key ∧ key ≤ '9' then
    let tasks := app.task_manager.get_incomplete_tasks true
    let idx := key.toNat - '0'.toNat - 1
    if h : idx < tasks.length then
      some { app with
        task_manager := app.task_manager.set_active_task
          (some (tasks.get ⟨idx, h⟩).id) }
    else some app
  else some app

lemma update_completes (t : PomodoroTimer) (st now : ℚ)
    (h1 : t.state = TimerState.RUNNING) (h2 : t.start_time = some st)
    (h3 : (t.total_seconds : ℚ) ≤ now - st) :
    t.update now = some (t.complete_session, true) := by
  unfold PomodoroTimer.update
  rw [if_neg (by simp [h1])]
  split
  · rename_i heq
    rw [h2] at heq
    exact Option.noConfusion heq
  · rename_i st2 heq
    rw [h2] at heq
    injection heq with heq2
    subst heq2
    dsimp only
    have h4 := le_pyInt t.total_seconds _ h3
    rw [max_eq_left (by omega : t.total_seconds - pyInt (now - st) ≤ 0)]
    rw [if_pos rfl, complete_session_set_remaining]

/-- The work-session application state for the C1 run: `tmOne` loaded, task
1 active, a 25-minute work session running since time 0, empty statistics. -/
def c1AppWork : PomodoroApp where
  timer := runningT
  task_manager := tmOne
  stats := Statistics.init
  running := true
  show_help := false

/-- A running 5-minute short break that started at time 0. -/
def breakT : PomodoroTimer :=
  { runningT with
    session_type := SessionType.SHORT_BREAK,
    total_seconds := SHORT_BREAK_MINUTES * 60,
    remaining_seconds := SHORT_BREAK_MINUTES * 60 }

/-- `c1AppWork` during its short break instead of the work session. -/
def c1AppBreak : PomodoroApp :=
  { c1AppWork with timer := breakT }

/-- C1 fails on the code: `complete_session` runs inside `update()` before
`on_session_complete` fires, so the handler's
`self.timer.session_type == WORK` guard sees the next session's type.  When
the work session expires (first conjunct) the timer has already moved to
ShortBreak, so nothing is recorded and no task counter moves — despite the
comment "Record work session" and an active task; when the break expires
(second conjunct) the timer has moved to Work, so a pomodoro is wrongly
recorded and the active task's counter wrongly incremented. -/
theorem c1_work_completion_not_recorded :
    (PomodoroApp.tick_update 1500 "2026-10-12" c1AppWork).map
        (fun a => (a.timer.session_type, a.stats.stats, a.task_manager))
      = some (SessionType.SHORT_BREAK, [], tmOne) ∧
    (PomodoroApp.tick_update 300 "2026-10-12" c1AppBreak).map
        (fun a => (a.timer.session_type,
          (a.stats.get_today_stats "2026-10-12").total_pomodoros,
          alookup "Write report" (a.stats.get_today_stats "2026-10-12").tasks,
          (a.task_manager.get_task 1).map Task.completed_pomodoros))
      = some (SessionType.WORK, 1, some 1, some 1) := by
  have hW : runningT.update 1500 = some (runningT.complete_session, true) :=
    update_completes runningT 0 1500 rfl rfl
      (by norm_num [runningT, PomodoroTimer.init, WORK_MINUTES])
  have hB : breakT.update 300 = some (breakT.complete_session, true) :=
    update_completes breakT 0 300 rfl rfl
      (by norm_num [breakT, runningT, PomodoroTimer.init, SHORT_BREAK_MINUTES])
  constructor
  · simp only [PomodoroApp.tick_update,
      show c1AppWork.timer = runningT from rfl, hW]
    decide
  · simp only [PomodoroApp.tick_update,
      show c1AppBreak.timer = breakT from rfl, hB]
    decide

lemma po_trans (a b c : Task) :
    decide (priority_order a.priority ≤ priority_order b.priority) = true →
    decide (priority_order b.priority ≤ priority_order c.priority) = true →
    decide (priority_order a.priority ≤ priority_order c.priority) = true := by
  simp only [decide_eq_true_eq]
  omega

lemma po_total (a b : Task) :
    (decide (priority_order a.priority ≤ priority_order b.priority)
      || decide (priority_order b.priority ≤ priority_order a.priority))
      = true := by
  simp only [Bool.or_eq_true, decide_eq_true_eq]
  exact le_total _ _

/-- High-priority task "A", first inserted. -/
def taskH1 : Task := ⟨1, "A", "High", 1, 0, false, "d"⟩

/-- High-priority task "B", second inserted. -/
def taskH2 : Task := ⟨2, "B", "High", 1, 0, false, "d"⟩

/-- Medium-priority task "C", third inserted. -/
def taskM3 : Task := ⟨3, "C", "Medium", 1, 0, false, "d"⟩

/-- The store of the claim's example: [High:"A", High:"B", Medium:"C"]. -/
def tmABC : TaskManager := ⟨[taskH1, taskH2, taskM3], 4, none⟩

/-- An application showing `tmABC`, no help screen. -/
def appABC : PomodoroApp :=
  ⟨PomodoroTimer.init, tmABC, Statistics.init, true, false⟩

/-- C9: a numeric key `'1'`–`'9'` selects, from the same
`get_incomplete_tasks true` list that `render_tasks` enumerates, the task at
position `int(key) - 1`, and does nothing when that position is beyond the
list; the list is the incomplete tasks ordered by priority High < Medium <
Low (nondecreasing `priority_order`), a permutation of the insertion-order
filter that keeps every already-ordered pair in insertion order (stable
ties); concretely key `'3'` on [High:"A", High:"B", Medium:"C"] activates
task "C" (id 3) and key `'9'` changes nothing. -/
theorem c9_numeric_key_selection :
    (∀ (dialog : Char → PomodoroApp → PomodoroApp) (app : PomodoroApp)
        (now : ℚ) (key : Char),
        app.show_help = false → '1' ≤ key → key ≤ '9' →
        (∀ h : key.toNat - '0'.toNat - 1
            < (app.task_manager.get_incomplete_tasks true).length,
          app.handle_input dialog now key
            = some { app with
                task_manager := app.task_manager.set_active_task
                  (some ((app.task_manager.get_incomplete_tasks true).get
                    ⟨key.toNat - '0'.toNat - 1, h⟩).id) }) ∧
        ((app.task_manager.get_incomplete_tasks true).length
            ≤ key.toNat - '0'.toNat - 1 →
          app.handle_input dialog now key = some app)) ∧
    (∀ tm : TaskManager,
        List.Pairwise
          (fun a b => priority_order a.priority ≤ priority_order b.priority)
          (tm.get_incomplete_tasks true) ∧
        (tm.get_incomplete_tasks true).Perm
          (tm.tasks.filter (fun t => !t.completed)) ∧
        (∀ a b : Task,
          List.Sublist [a, b] (tm.tasks.filter (fun t => !t.completed)) →
          priority_order a.priority ≤ priority_order b.priority →
          List.Sublist [a, b] (tm.get_incomplete_tasks true))) ∧
    (tmABC.get_incomplete_tasks true = [taskH1, taskH2, taskM3] ∧
      ∀ dialog : Char → PomodoroApp → PomodoroApp,
        appABC.handle_input dialog 0 '3'
          = some { appABC with
              task_manager := tmABC.set_active_task (some 3) } ∧
        appABC.handle_input dialog 0 '9' = some appABC) := by
  refine ⟨?_, ?_, ?_⟩
  · intro dialog app now key hsh h1 h9
    have h1v : (49 : UInt32) ≤ key.val := h1
    have h9v : key.val ≤ (57 : UInt32) := h9
    have hq : ¬ key = 'q' := fun he => by subst he; exact absurd h9 (by decide)
    have hqm : ¬ key = '?' := fun he => by
      subst he; exact absurd h9 (by decide)
    have hs : ¬ key = 's' := fun he => by subst he; exact absurd h9 (by decide)
    have hk : ¬ key = 'k' := fun he => by subst he; exact absurd h9 (by decide)
    have habcd : ¬ (key = 'a' ∨ key = 'e' ∨ key = 'c' ∨ key = 'd') := by
      rintro (he | he | he | he) <;>
        (subst he; exact absurd h9 (by decide))
    have hdig : (key.isDigit ∧ '1' ≤ key ∧ key ≤ '9') := by
      refine ⟨?_, h1, h9⟩
      have h48 : (48 : UInt32) ≤ key.val :=
        UInt32.le_trans (by decide : (48 : UInt32) ≤ 49) h1v
      simp only [Char.isDigit, ge_iff_le, Bool.and_eq_true, decide_eq_true_eq]
      exact ⟨h48, h9v⟩
    constructor
    · intro h
      unfold PomodoroApp.handle_input
      rw [if_neg (by simp [hsh]), if_neg hq, if_neg hqm, if_neg hs,
        if_neg hk, if_neg habcd, if_pos hdig, dif_pos h]
    · intro h
      unfold PomodoroApp.handle_input
      rw [if_neg (by simp [hsh]), if_neg hq, if_neg hqm, if_neg hs,
        if_neg hk, if_neg habcd, if_pos hdig, dif_neg (by omega)]
  · intro tm
    have heq : tm.get_incomplete_tasks true
        = (tm.tasks.filter (fun t => !t.completed)).mergeSort
            (fun a b =>
              decide (priority_order a.priority ≤ priority_order b.priority))
        := rfl
    refine ⟨?_, ?_, ?_⟩
    · rw [heq]
      exact (List.sorted_mergeSort po_trans po_total _).imp
        (fun h => by simpa using h)
    · rw [heq]
      exact List.mergeSort_perm _ _
    · intro a b hsub hle
      rw [heq]
      exact List.sublist_mergeSort po_trans po_total
        (by simp [hle]) hsub
  · constructor
    · simp [TaskManager.get_incomplete_tasks, tmABC, taskH1, taskH2, taskM3,
        priority_order, List.mergeSort]
    · intro dialog
      constructor
      · simp [PomodoroApp.handle_input, appABC, tmABC, taskH1, taskH2,
          taskM3, TaskManager.get_incomplete_tasks, priority_order,
          List.mergeSort, TaskManager.set_active_task]
      · simp [PomodoroApp.handle_input, appABC, tmABC, taskH1, taskH2,
          taskM3, TaskManager.get_incomplete_tasks, priority_order,
          List.mergeSort, TaskManager.set_active_task]

/-- Witness for `c9_numeric_key_selection`: on the three-task example a
`'9'` keypress is beyond the list and leaves the application unchanged. -/
theorem c9_witness :
    appABC.handle_input (fun _ a => a) 5 '9' = some appABC :=
  (c9_numeric_key_selection.1 (fun _ a => a) appABC 5 '9' rfl (by decide)
      (by decide)).2
    (by simp [appABC, tmABC, taskH1, taskH2, taskM3,
      TaskManager.get_incomplete_tasks, priority_order, List.mergeSort])
